import Mathlib

/-!
Shallow embedding of `src/app.js` of the binance.us trading bot.

The tick side (quote cache, opportunity detector, execution lock) is the
WebSocket message handler, modelled as a pure function on the module
state.  The order-lifecycle engine (`executeArbitrage`, `sellAfterBuy`,
`limitSell`, `trackSellOrder`, `cancelAndMarketSell`, `postMarketSell`,
`handleGenericAPIError`) is a set of asynchronous continuations; it is
modelled as a cooperative task machine driven by an oracle of remote API
outcomes, emitting a trace of observable actions (order posts, cancels,
status queries, lock releases, waits, process exits).  JS numbers are
modelled as rationals.
-/

namespace App

/-- `TARGET_DELTA = +0.25` (app.js line 8). -/
def TARGET_DELTA : ℚ := 1/4

/-- `MIN_USD_TRADE = 11` (app.js line 12). -/
def MIN_USD_TRADE : ℚ := 11

/-- `USD_TRADE_QTY = 25` (app.js line 16). -/
def USD_TRADE_QTY : ℚ := 25

/-- `RETRY_DELAY_MS = 200` (app.js line 22). -/
def RETRY_DELAY_MS : ℚ := 200

/-- `MAX_ATTEMPTS = 25` (app.js line 25). -/
def MAX_ATTEMPTS : Nat := 25

/-- The two streamed symbols (app.js line 48). -/
inductive Symbol | BTCUSD | BTCBUSD
deriving DecidableEq

/-- The expression at app.js line 70, mapping a symbol to its peer. -/
def opposite : Symbol → Symbol
  | .BTCUSD => .BTCBUSD
  | .BTCBUSD => .BTCUSD

/-- A book-ticker quote as stored in `LATEST_ORDER[s]` (app.js lines 63-68):
lowest ask `a`, ask quantity `A`, highest bid `b`, bid quantity `B`. -/
structure Quote where
  a : ℚ
  A : ℚ
  b : ℚ
  B : ℚ
deriving DecidableEq

/-- The `LATEST_ORDER` object: at most one stored quote per symbol. -/
structure Cache where
  usd : Option Quote
  busd : Option Quote
deriving DecidableEq

/-- Read `LATEST_ORDER[s]`. -/
def Cache.get (c : Cache) : Symbol → Option Quote
  | .BTCUSD => c.usd
  | .BTCBUSD => c.busd

/-- Overwrite `LATEST_ORDER[s]`. -/
def Cache.set (c : Cache) : Symbol → Quote → Cache
  | .BTCUSD, q => { c with usd := some q }
  | .BTCBUSD, q => { c with busd := some q }

/-- The empty cache, corresponding to the literal empty object. -/
def Cache.empty : Cache := ⟨none, none⟩

/-- The module-level mutable state read and written by the tick handler:
`LOCK_LOOP` and `LATEST_ORDER` (app.js lines 28-31). -/
structure GlobalState where
  lockLoop : Bool
  latestOrder : Cache
deriving DecidableEq

/-- `RESET_LOOP` (app.js lines 41-46): release the lock and clear the
quote cache. -/
def RESET_LOOP (_st : GlobalState) : GlobalState :=
  { lockLoop := false, latestOrder := Cache.empty }

/-- The JS idiom at app.js lines 94, 102 and 204. -/
def floor4 (q : ℚ) : ℚ := (⌊q * 10000⌋ : ℚ) / 10000

/-- The two-decimal rounding at app.js line 253, on a nonnegative
number, modelled as round-half-up to two decimals. -/
def toFixed2 (q : ℚ) : ℚ := (⌊q * 100 + 1/2⌋ : ℚ) / 100

/-- A book-ticker tick message destructured at app.js line 62. -/
structure TickMsg where
  s : Symbol
  a : ℚ
  A : ℚ
  b : ℚ
  B : ℚ
deriving DecidableEq

/-- The arguments of a call to `executeArbitrage` (app.js lines 98, 106):
buy symbol, buy price, buy quantity, sell symbol, sell price. -/
structure ArbCall where
  buySymbol : Symbol
  buyPrice : ℚ
  buyQty : ℚ
  sellSymbol : Symbol
  sellPrice : ℚ
deriving DecidableEq

/-- The WebSocket message handler (app.js lines 49-111).  Returns the new
module state together with the `executeArbitrage` call it makes, if any. -/
def onMessage (st : GlobalState) (m : TickMsg) : GlobalState × Option ArbCall :=
  if st.lockLoop = true then (st, none)
  else
    match (st.latestOrder.set m.s ⟨m.a, m.A, m.b, m.B⟩).get (opposite m.s) with
    | none =>
      ({ lockLoop := false, latestOrder := st.latestOrder.set m.s ⟨m.a, m.A, m.b, m.B⟩ }, none)
    | some o =>
      if o.b - m.a - TARGET_DELTA ≤ 0 ∧ m.b - o.a - TARGET_DELTA ≤ 0 then
        ({ lockLoop := false, latestOrder := st.latestOrder.set m.s ⟨m.a, m.A, m.b, m.B⟩ }, none)
      else if o.b - m.a - TARGET_DELTA > m.b - o.a - TARGET_DELTA then
        if floor4 (USD_TRADE_QTY / m.a) * m.a < MIN_USD_TRADE then
          (RESET_LOOP { lockLoop := true, latestOrder := st.latestOrder.set m.s ⟨m.a, m.A, m.b, m.B⟩ }, none)
        else
          ({ lockLoop := true, latestOrder := st.latestOrder.set m.s ⟨m.a, m.A, m.b, m.B⟩ },
           some ⟨m.s, m.a, floor4 (USD_TRADE_QTY / m.a), opposite m.s, o.b⟩)
      else
        if floor4 (USD_TRADE_QTY / o.a) * o.a < MIN_USD_TRADE then
          (RESET_LOOP { lockLoop := true, latestOrder := st.latestOrder.set m.s ⟨m.a, m.A, m.b, m.B⟩ }, none)
        else
          ({ lockLoop := true, latestOrder := st.latestOrder.set m.s ⟨m.a, m.A, m.b, m.B⟩ },
           some ⟨opposite m.s, o.a, floor4 (USD_TRADE_QTY / o.a), m.s, m.b⟩)

/-- Order status strings compared by the engine. -/
inductive OrdStatus | NEW | PARTIALLY_FILLED | FILLED | CANCELED | UNKNOWN
deriving DecidableEq

/-- Order sides. -/
inductive Side | BUY | SELL
deriving DecidableEq

/-- Order types. -/
inductive OType | LIMIT | MARKET
deriving DecidableEq

/-- The fields of a 200 order API response used by the engine. -/
structure OrderRes where
  orderId : Nat
  status : OrdStatus
  executedQty : ℚ
  origQty : ℚ
deriving DecidableEq

/-- An error value as consumed by `handleGenericAPIError` (app.js line 440
destructures `status` out of it).  `r_request` (app.js lines 412-429)
builds its errors as the object spread of `statusCode`, `headers` and the
response body; there is no `status` key in that object, which is why the
`status` field here is an `Option`. -/
structure ApiError where
  status : Option Int
  statusCode : Int
  code : Int
  retryAfter : ℚ
deriving DecidableEq

/-- The error value `r_request` returns for an HTTP response with status
other than 200: the HTTP status is stored under `statusCode`, the body
contributes the venue `code`, and the headers carry the retry-after
duration (seconds).  The `status` field read by `handleGenericAPIError`
is absent, hence `none`. -/
def r_requestError (statusCode code : Int) (retryAfter : ℚ) : ApiError :=
  { status := none, statusCode := statusCode, code := code, retryAfter := retryAfter }

/-- One remote API outcome supplied by the environment: a 200 response
body, or a non-200 response (HTTP status, venue body code, retry-after). -/
inductive Outcome
  | ok (r : OrderRes)
  | httpErr (statusCode : Int) (code : Int) (retryAfter : ℚ)
deriving DecidableEq

/-- Observable actions of one execution cycle. -/
inductive Ev
  | postOrder (symbol : Symbol) (side : Side) (otype : OType) (qty : ℚ) (price : Option ℚ)
  | cancelReq (symbol : Symbol) (orderId : Nat)
  | statusReq (symbol : Symbol) (orderId : Nat)
  | reset
  | wait (ms : ℚ)
  | procExit (code : Int)
deriving DecidableEq

/-- The pending continuations of the engine, one per `async` function of
app.js (plus a deferred `RESET_LOOP`).  Each carries exactly the
parameters of the corresponding JS function.  In the `trackSellOrder`
exhaustion branch (app.js line 362) `cancelAndMarketSell` is called
without its `buyQty` argument; that argument is only read in the
`code -2011` branch when `side` is BUY, and the call site passes SELL, so
the omitted argument is modelled as 0. -/
inductive Job
  | executeArbitrage (buySymbol : Symbol) (buyPrice buyQty : ℚ) (sellSymbol : Symbol) (sellPrice : ℚ)
  | sellAfterBuy (buySymbol : Symbol) (buyQtyPosted : ℚ) (sellSymbol : Symbol) (sellPrice : ℚ)
      (res : OrderRes) (numAttemptsLeft : Nat)
  | cancelAndMarketSell (orderId : Nat) (buySymbol sellSymbol : Symbol) (side : Side)
      (buyQty : ℚ) (numAttemptsLeft : Nat)
  | limitSell (symbol : Symbol) (quantity price : ℚ) (numAttemptsLeft : Nat)
  | trackSellOrder (quantity : ℚ) (symbol : Symbol) (orderId : Nat) (numAttemptsLeft : Nat)
  | postMarketSell (symbol : Symbol) (quantity : ℚ) (numAttemptsLeft : Nat)
  | resetLoop
deriving DecidableEq

/-- Result of running one continuation to its next suspension point:
emitted events, continuations started synchronously (`now`),
continuations deferred with a timer (`later`), and whether the process
exited. -/
structure StepOut where
  evs : List Ev
  now : List Job
  later : List Job
  halt : Bool
deriving DecidableEq

/-- In JS, comparing `undefined` with a number is false; a present value
compares numerically.  Used for the app.js line 451 comparison. -/
def jsLt : Option Int → Int → Bool
  | none, _ => false
  | some v, n => decide (v < n)

/-- app.js line 458. -/
def errorsToRetry : List Int := [-1000, -1006, -1007, -1013, -1021]

/-- app.js line 459. -/
def errorsToReset : List Int := [-2010, -2013]

/-- `handleGenericAPIError` (app.js lines 436-475).  Note it reads
`error.status`, while `r_request` stores the HTTP status under
`statusCode`; on every error actually produced by `r_request` the
`status` field is `none`. -/
def handleGenericAPIError (error : ApiError) (retryCallback : Option Job) : StepOut :=
  if error.status = some 403 then
    { evs := [.procExit 1], now := [], later := [], halt := true }
  else if error.status = some 429 ∨ error.status = some 418 then
    { evs := [.wait (error.retryAfter * 1000)], now := [],
      later := [retryCallback.getD .resetLoop], halt := false }
  else if error.status ≠ some 400 ∧ jsLt error.status 500 = true then
    { evs := [.procExit 2], now := [], later := [], halt := true }
  else if error.code ∈ errorsToRetry then
    { evs := [.wait RETRY_DELAY_MS], now := [],
      later := [retryCallback.getD .resetLoop], halt := false }
  else if error.code ∈ errorsToReset then
    { evs := [.reset], now := [], later := [], halt := false }
  else
    { evs := [.procExit error.code], now := [], later := [], halt := true }

/-- Run one continuation to its next suspension point, consuming one API
outcome from the oracle when the continuation issues a request.  An empty
oracle at a request halts the run (the awaited response never arrives).
Each arm mirrors the body of the corresponding app.js function. -/
def step : Job → List Outcome → StepOut × List Outcome
  | .resetLoop, ors =>
    ({ evs := [.reset], now := [], later := [], halt := false }, ors)
  | .executeArbitrage bS bP bQ sS sP, ors =>
    match ors with
    | [] => ({ evs := [], now := [], later := [], halt := true }, [])
    | o :: rest =>
      match o with
      | .httpErr sc code ra =>
        let h := handleGenericAPIError (r_requestError sc code ra) none
        ({ evs := Ev.postOrder bS .BUY .LIMIT bQ (some bP) :: h.evs,
           now := h.now, later := h.later, halt := h.halt }, rest)
      | .ok orderRes =>
        ({ evs := [.postOrder bS .BUY .LIMIT bQ (some bP)],
           now := [.sellAfterBuy bS bQ sS sP orderRes MAX_ATTEMPTS],
           later := [], halt := false }, rest)
  | .sellAfterBuy bS qP sS sP res n, ors =>
    if res.status = .FILLED then
      ({ evs := [], now := [.limitSell sS qP sP MAX_ATTEMPTS], later := [], halt := false }, ors)
    else if res.status = .PARTIALLY_FILLED ∧ res.executedQty ≥ qP / 2 then
      ({ evs := [],
         now := [.limitSell sS res.executedQty sP MAX_ATTEMPTS,
                 .cancelAndMarketSell res.orderId bS sS .BUY
                   (toFixed2 (qP - res.executedQty)) MAX_ATTEMPTS],
         later := [], halt := false }, ors)
    else if n = 0 then
      ({ evs := [],
         now := [.cancelAndMarketSell res.orderId bS sS .BUY res.executedQty MAX_ATTEMPTS],
         later := [], halt := false }, ors)
    else
      match ors with
      | [] => ({ evs := [], now := [], later := [], halt := true }, [])
      | o :: rest =>
        match o with
        | .httpErr sc code ra =>
          let h := handleGenericAPIError (r_requestError sc code ra)
            (some (.sellAfterBuy bS qP sS sP res MAX_ATTEMPTS))
          ({ evs := Ev.statusReq bS res.orderId :: h.evs,
             now := h.now, later := h.later, halt := h.halt }, rest)
        | .ok statusRes =>
          if statusRes.status = .FILLED then
            ({ evs := [.statusReq bS res.orderId],
               now := [.limitSell sS qP sP MAX_ATTEMPTS], later := [], halt := false }, rest)
          else
            ({ evs := [.statusReq bS res.orderId], now := [],
               later := [.sellAfterBuy bS qP sS sP statusRes (n - 1)], halt := false }, rest)
  | .cancelAndMarketSell oid bS sS side qty n, ors =>
    match ors with
    | [] => ({ evs := [], now := [], later := [], halt := true }, [])
    | o :: rest =>
      match o with
      | .httpErr sc code ra =>
        if code = -2011 then
          if side = .BUY then
            ({ evs := [.cancelReq bS oid],
               now := [.postMarketSell sS qty MAX_ATTEMPTS, .resetLoop],
               later := [], halt := false }, rest)
          else
            ({ evs := [.cancelReq bS oid], now := [.resetLoop], later := [], halt := false }, rest)
        else
          let h := handleGenericAPIError (r_requestError sc code ra)
            (if n > 0 then some (.cancelAndMarketSell oid bS sS side qty (n - 1)) else none)
          ({ evs := Ev.cancelReq bS oid :: h.evs,
             now := h.now, later := h.later, halt := h.halt }, rest)
      | .ok orderRes =>
        if (if side = .BUY then orderRes.executedQty
            else floor4 (orderRes.origQty - orderRes.executedQty)) ≠ 0 then
          ({ evs := [.cancelReq bS oid],
             now := [.postMarketSell sS
               (if side = .BUY then orderRes.executedQty
                else floor4 (orderRes.origQty - orderRes.executedQty)) MAX_ATTEMPTS],
             later := [], halt := false }, rest)
        else
          ({ evs := [.cancelReq bS oid, .reset], now := [], later := [], halt := false }, rest)
  | .limitSell sym qty price n, ors =>
    match ors with
    | [] => ({ evs := [], now := [], later := [], halt := true }, [])
    | o :: rest =>
      match o with
      | .httpErr sc code ra =>
        let h := handleGenericAPIError (r_requestError sc code ra)
          (some (if n > 0 then .limitSell sym qty price (n - 1)
                 else .postMarketSell sym qty MAX_ATTEMPTS))
        ({ evs := Ev.postOrder sym .SELL .LIMIT qty (some price) :: h.evs,
           now := h.now, later := h.later, halt := h.halt }, rest)
      | .ok sellRes =>
        ({ evs := [.postOrder sym .SELL .LIMIT qty (some price)],
           now := [.trackSellOrder qty sym sellRes.orderId MAX_ATTEMPTS],
           later := [], halt := false }, rest)
  | .trackSellOrder qty sym oid n, ors =>
    match ors with
    | [] => ({ evs := [], now := [], later := [], halt := true }, [])
    | o :: rest =>
      match o with
      | .httpErr sc code ra =>
        let h := handleGenericAPIError (r_requestError sc code ra)
          (some (if n > 0 then .trackSellOrder qty sym oid (n - 1)
                 else .postMarketSell sym qty MAX_ATTEMPTS))
        ({ evs := Ev.statusReq sym oid :: h.evs,
           now := h.now, later := h.later, halt := h.halt }, rest)
      | .ok statusRes =>
        if statusRes.status = .FILLED then
          ({ evs := [.statusReq sym oid, .reset], now := [], later := [], halt := false }, rest)
        else if n ≤ 0 then
          ({ evs := [.statusReq sym oid],
             now := [.cancelAndMarketSell oid sym sym .SELL 0 MAX_ATTEMPTS],
             later := [], halt := false }, rest)
        else
          ({ evs := [.statusReq sym oid], now := [],
             later := [.trackSellOrder qty sym oid (n - 1)], halt := false }, rest)
  | .postMarketSell sym qty n, ors =>
    match ors with
    | [] => ({ evs := [], now := [], later := [], halt := true }, [])
    | o :: rest =>
      match o with
      | .httpErr sc code ra =>
        let h := handleGenericAPIError (r_requestError sc code ra)
          (if n > 0 then some (.postMarketSell sym qty (n - 1)) else none)
        ({ evs := Ev.postOrder sym .SELL .MARKET qty none :: h.evs,
           now := h.now, later := h.later, halt := h.halt }, rest)
      | .ok _ =>
        ({ evs := [.postOrder sym .SELL .MARKET qty none], now := [], later := [], halt := false }, rest)

/-- Run the pending continuations (cooperative scheduler: synchronous
continuations go ahead of the pending queue, timer continuations behind
it) until the queue empties, the process exits, or fuel runs out.
Returns the event trace and the leftover queue. -/
def run : Nat → List Job → List Outcome → List Ev × List Job
  | 0, q, _ => ([], q)
  | _ + 1, [], _ => ([], [])
  | fuel + 1, j :: q, ors =>
    let s := step j ors
    if s.1.halt then (s.1.evs, [])
    else
      let r := run fuel (s.1.now ++ q ++ s.1.later) s.2
      (s.1.evs ++ r.1, r.2)

/-- Whether an event is a lock release (`RESET_LOOP`). -/
def isReset : Ev → Bool
  | .reset => true
  | _ => false

/-- Whether an event is a process exit. -/
def isExit : Ev → Bool
  | .procExit _ => true
  | _ => false

/-- Number of lock releases in a trace. -/
def countResets (l : List Ev) : Nat := l.countP fun e => isReset e

/-- Total quantity across all submitted SELL orders (limit or market) in
a trace. -/
def exitSellTotal (l : List Ev) : ℚ :=
  (l.filterMap fun e =>
    match e with
    | .postOrder _ .SELL _ q _ => some q
    | _ => none).sum

/-- C2: a tick arriving while `LOCK_LOOP === true` is dropped before any
work is done: the handler returns immediately (app.js line 50), so there
is no quote-cache update, no order placement, and no lock transition. -/
theorem C2_locked_tick_is_noop (st : GlobalState) (m : TickMsg)
    (h : st.lockLoop = true) : onMessage st m = (st, none) := by
  simp [onMessage, h]

/-- C2 witness: a concrete locked state with a cached peer quote, and a
tick that would otherwise trigger a detection, is dropped unchanged. -/
theorem C2_locked_tick_is_noop_witness :
    (GlobalState.mk true ⟨none, some ⟨100, 5, 101, 5⟩⟩).lockLoop = true
      ∧ onMessage ⟨true, ⟨none, some ⟨100, 5, 101, 5⟩⟩⟩ ⟨.BTCUSD, 100, 5, 101, 5⟩
          = (⟨true, ⟨none, some ⟨100, 5, 101, 5⟩⟩⟩, none) :=
  ⟨rfl, C2_locked_tick_is_noop _ _ rfl⟩

unseal Rat.mul Rat.add Rat.sub Rat.inv in
/-- C5 counterexample: the claim says a cancel answered with the venue
code -2011 makes the engine proceed to exit-posting with the full
executed quantity.  Concretely: the entry order posted quantity 1, the
last status poll reported `executedQty` 3/10, the attempt budget is
exhausted, so `sellAfterBuy` calls `cancelAndMarketSell` with 3/10; the
cancel returns code -2011, which means the order was concurrently filled
in full (executed quantity 1).  The engine posts a market sell for 3/10,
not for the full executed quantity 1. -/
theorem C5_stale_qty_counterexample :
    (run 10 [.sellAfterBuy .BTCBUSD 1 .BTCUSD 101 ⟨1, .NEW, 3/10, 1⟩ 0]
        [.httpErr 400 (-2011) 0, .ok ⟨3, .NEW, 0, 0⟩]).1
      = [.cancelReq .BTCBUSD 1, .postOrder .BTCUSD .SELL .MARKET (3/10) none, .reset]
      ∧ ¬((3 : ℚ)/10 = 1) := by
  decide

unseal Rat.mul Rat.add Rat.sub Rat.inv in
/-- C5 (amended): a cancel answered with venue code -2011 is treated as
the order having been concurrently filled, not as an error: for a
BUY-side cancel the engine immediately posts a market sell for the
caller-supplied quantity (the last-known executed quantity or the
unfilled residual, with no re-query for the full executed quantity) and
then releases the lock; for a SELL-side cancel it just releases the
lock, exactly as `trackSellOrder` does on a status query returning
FILLED (app.js lines 192-198, 357-359). -/
theorem C5_cancel_2011_behavior (oid : Nat) (bS sS : Symbol) (side : Side)
    (qty : ℚ) (n : Nat) (sc : Int) (ra : ℚ) (rest : List Outcome) :
    step (.cancelAndMarketSell oid bS sS side qty n) (.httpErr sc (-2011) ra :: rest)
      = (if side = .BUY then
           { evs := [.cancelReq bS oid],
             now := [.postMarketSell sS qty MAX_ATTEMPTS, .resetLoop],
             later := [], halt := false }
         else
           { evs := [.cancelReq bS oid], now := [.resetLoop], later := [], halt := false },
         rest) := by
  cases side <;> simp [step]

/-- C1 failing execution: entry fills in full, the exit limit order
posts, 26 status polls never show FILLED (exhausting the tracking
budget), the cancel succeeds with a nonzero unsold remainder, and the
market sell of that remainder succeeds. -/
def c1Oracle : List Outcome :=
  [Outcome.ok ⟨1, .FILLED, 1/4, 1/4⟩, Outcome.ok ⟨2, .NEW, 0, 1/4⟩]
    ++ List.replicate 26 (Outcome.ok ⟨2, .NEW, 0, 1/4⟩)
    ++ [Outcome.ok ⟨2, .CANCELED, 1/10, 1/4⟩, Outcome.ok ⟨3, .NEW, 0, 0⟩]

unseal Rat.mul Rat.add Rat.sub Rat.inv in
/-- C1: refuted on the code.  A cycle that takes the exit-tracking
exhaustion branch (cancel of the exit order succeeds with a nonzero
unsold remainder, market sell of the remainder succeeds) terminates —
every continuation done, no process exit — with zero lock releases:
neither `postMarketSell` success (app.js lines 372-390) nor the
nonzero-remainder branch of `cancelAndMarketSell` (app.js line 206)
calls `RESET_LOOP`, so `LOCK_LOOP` stays `true` forever. -/
theorem C1_cycle_ends_without_lock_release :
    countResets (run 100 [.executeArbitrage .BTCUSD 100 (1/4) .BTCBUSD 101] c1Oracle).1 = 0
      ∧ (run 100 [.executeArbitrage .BTCUSD 100 (1/4) .BTCBUSD 101] c1Oracle).2 = []
      ∧ ((run 100 [.executeArbitrage .BTCUSD 100 (1/4) .BTCBUSD 101] c1Oracle).1.countP
          fun e => isExit e) = 0 := by
  decide

/-- C3 failing execution: the entry order for quantity 1/4 comes back
PARTIALLY_FILLED with executed quantity 1/5 (at least half), the exit
limit order for 1/5 posts and fills, and the residual cancel succeeds,
reporting cumulative executed entry quantity 1/5 of the original 1/4. -/
def c3Oracle : List Outcome :=
  [Outcome.ok ⟨1, .PARTIALLY_FILLED, 1/5, 1/4⟩, Outcome.ok ⟨2, .NEW, 0, 1/5⟩,
   Outcome.ok ⟨2, .FILLED, 1/5, 1/5⟩, Outcome.ok ⟨1, .CANCELED, 1/5, 1/4⟩,
   Outcome.ok ⟨3, .NEW, 0, 0⟩]

unseal Rat.mul Rat.add Rat.sub Rat.inv in
/-- C3: refuted on the code.  On the partial-fill path the engine limit
sells the executed quantity (1/5), then `cancelAndMarketSell` with side
BUY interprets a successful cancel by market selling the cancel
response's `executedQty` — the cumulative executed entry quantity
(1/5) — again (app.js lines 199-206), instead of the unfilled residual
it was handed.  Total exit-side quantity submitted is 2/5, although the
entry order's cumulative executed quantity is 1/5 in every response of
this execution. -/
theorem C3_exit_exceeds_entry_executed :
    (run 50 [.executeArbitrage .BTCBUSD 100 (1/4) .BTCUSD 101] c3Oracle).1
      = [.postOrder .BTCBUSD .BUY .LIMIT (1/4) (some 100),
         .postOrder .BTCUSD .SELL .LIMIT (1/5) (some 101),
         .statusReq .BTCUSD 2, .reset,
         .cancelReq .BTCBUSD 1,
         .postOrder .BTCUSD .SELL .MARKET (1/5) none]
      ∧ exitSellTotal (run 50 [.executeArbitrage .BTCBUSD 100 (1/4) .BTCUSD 101] c3Oracle).1 = 2/5
      ∧ ¬((2 : ℚ)/5 ≤ 1/5) := by
  decide

unseal Rat.mul Rat.add Rat.sub Rat.inv in
/-- C6 counterexample: the claim says the diffA direction wins a tie.
With the cached peer quote and the incoming BTCUSD tick both at
bid 101 / ask 100, diffA and diffB are both 0.75; the test at app.js
line 93 is the strict `diffA > diffB`, so the tie falls to the else
branch and the engine buys the opposite symbol (the diffB direction),
not the tick's symbol (the diffA direction). -/
theorem C6_tie_goes_to_diffB :
    (onMessage ⟨false, ⟨none, some ⟨100, 5, 101, 5⟩⟩⟩ ⟨.BTCUSD, 100, 5, 101, 5⟩).2
      = some ⟨.BTCBUSD, 100, 1/4, .BTCUSD, 101⟩
      ∧ Symbol.BTCBUSD ≠ Symbol.BTCUSD := by
  decide

unseal Rat.mul Rat.add Rat.sub Rat.inv in
/-- C7 counterexample: the claim says the posted entry quantity is the
minimum of the floored notional conversion, the counterparty's displayed
quantity and the entry side's displayed quantity.  Here the entry side
(BTCUSD ask) displays only 1/10 and the counterparty bid displays 5, yet
the engine posts `Math.floor(25 / 100 * 10000) / 10000 = 1/4` — the
displayed quantities are cached but never consulted (app.js line 94). -/
theorem C7_qty_ignores_displayed :
    (onMessage ⟨false, ⟨none, some ⟨102, 5, 101, 5⟩⟩⟩ ⟨.BTCUSD, 100, 1/10, 99, 2⟩).2
      = some ⟨.BTCUSD, 100, 1/4, .BTCBUSD, 101⟩
      ∧ ¬((1 : ℚ)/4 = min (min (1/4) 5) (1/10)) := by
  decide

unseal Rat.mul Rat.add Rat.sub Rat.inv in
/-- C8 counterexample: the claim says each failed attempt strictly
decreases the step's attempt counter.  In `sellAfterBuy`, when the
status poll fails, the retry continuation passed to
`handleGenericAPIError` omits `numAttemptsLeft` (app.js line 267), so it
restarts the entry-monitoring step with the default `MAX_ATTEMPTS = 25`:
from a counter of 3, the rescheduled continuation carries 25, which is
not a decrease. -/
theorem C8_counter_resets_on_status_error :
    step (.sellAfterBuy .BTCUSD (1/4) .BTCBUSD 101 ⟨1, .NEW, 0, 1/4⟩ 3) [.httpErr 500 (-1000) 0]
      = ({ evs := [.statusReq .BTCUSD 1, .wait 200],
           now := [],
           later := [.sellAfterBuy .BTCUSD (1/4) .BTCBUSD 101 ⟨1, .NEW, 0, 1/4⟩ 25],
           halt := false }, [])
      ∧ ¬(25 < 3) := by
  decide

/-- C9: refuted on the code.  `handleGenericAPIError` destructures
`status` from the error object, but `r_request` stores the HTTP status
under `statusCode` (app.js lines 424-425, 440), so `status` is undefined
on every error the program ever constructs: the 403, 429/418 and
client-error branches are dead.  A rate-limited response (HTTP 429,
retry-after 2 seconds, venue body code -1003) with a pending
continuation does not wait and resume; it falls through to the venue
code classification and, the code being in neither list, calls
`process.exit`. -/
theorem C9_rate_limit_branch_dead (t : Job) :
    handleGenericAPIError (r_requestError 429 (-1003) 2) (some t)
      = { evs := [.procExit (-1003)], now := [], later := [], halt := true }
      ∧ (r_requestError 429 (-1003) 2).status = none :=
  ⟨rfl, rfl⟩

/-- C4: whenever the entry order status is PARTIALLY_FILLED with
executed quantity at least half the posted quantity, `sellAfterBuy`
(app.js lines 250-254) starts the exit limit sell for exactly the
executed quantity and queues, behind it, the cancel of the entry
order's residual; the exit post request is the very first event of the
exit continuation whatever the next oracle outcome is, so the residual
cancel never blocks the exit path. -/
theorem C4_partial_exit_and_residual (bS sS : Symbol) (qP sP : ℚ)
    (res : OrderRes) (n : Nat) (ors : List Outcome)
    (h1 : res.status = .PARTIALLY_FILLED) (h2 : res.executedQty ≥ qP / 2) :
    step (.sellAfterBuy bS qP sS sP res n) ors
      = ({ evs := [],
           now := [.limitSell sS res.executedQty sP MAX_ATTEMPTS,
                   .cancelAndMarketSell res.orderId bS sS .BUY
                     (toFixed2 (qP - res.executedQty)) MAX_ATTEMPTS],
           later := [], halt := false }, ors)
      ∧ ∀ (o : Outcome) (rest : List Outcome),
          (step (.limitSell sS res.executedQty sP MAX_ATTEMPTS) (o :: rest)).1.evs.head?
            = some (.postOrder sS .SELL .LIMIT res.executedQty (some sP)) := by
  constructor
  · simp [step, h1, h2]
  · intro o rest
    cases o <;> simp [step]

/-- C4 witness: a concrete partial fill of 3/20 out of a posted 1/4. -/
theorem C4_partial_exit_and_residual_witness :
    ((⟨1, .PARTIALLY_FILLED, 3/20, 1/4⟩ : OrderRes).status = OrdStatus.PARTIALLY_FILLED
        ∧ (⟨1, .PARTIALLY_FILLED, 3/20, 1/4⟩ : OrderRes).executedQty ≥ (1/4 : ℚ) / 2)
      ∧ step (.sellAfterBuy .BTCUSD (1/4) .BTCBUSD 101 ⟨1, .PARTIALLY_FILLED, 3/20, 1/4⟩ 25) []
          = ({ evs := [],
               now := [.limitSell .BTCBUSD (3/20) 101 MAX_ATTEMPTS,
                       .cancelAndMarketSell 1 .BTCUSD .BTCBUSD .BUY
                         (toFixed2 (1/4 - 3/20)) MAX_ATTEMPTS],
               later := [], halt := false }, []) :=
  ⟨⟨rfl, by norm_num⟩,
   (C4_partial_exit_and_residual .BTCUSD .BTCBUSD (1/4) 101
      ⟨1, .PARTIALLY_FILLED, 3/20, 1/4⟩ 25 [] rfl (by norm_num)).1⟩

/-- C6 (amended): with the lock free and the peer quote present, the
handler selects the direction with the strictly larger diff; but when
`diffA` equals `diffB` the `diffB` direction wins the tie, because the
test at app.js line 93 is the strict comparison `diffA > diffB` and the
tie falls into the else branch. -/
theorem C6_detector_direction (st : GlobalState) (m : TickMsg) (o : Quote)
    (h1 : st.lockLoop = false)
    (h2 : (st.latestOrder.set m.s ⟨m.a, m.A, m.b, m.B⟩).get (opposite m.s) = some o) :
    (o.b - m.a - TARGET_DELTA > m.b - o.a - TARGET_DELTA →
      0 < o.b - m.a - TARGET_DELTA →
      ¬(floor4 (USD_TRADE_QTY / m.a) * m.a < MIN_USD_TRADE) →
      (onMessage st m).2 = some ⟨m.s, m.a, floor4 (USD_TRADE_QTY / m.a), opposite m.s, o.b⟩)
    ∧ (¬(o.b - m.a - TARGET_DELTA > m.b - o.a - TARGET_DELTA) →
      0 < m.b - o.a - TARGET_DELTA →
      ¬(floor4 (USD_TRADE_QTY / o.a) * o.a < MIN_USD_TRADE) →
      (onMessage st m).2 = some ⟨opposite m.s, o.a, floor4 (USD_TRADE_QTY / o.a), m.s, m.b⟩) := by
  constructor
  · intro hgt hpos hmin
    have hguard : ¬(o.b ≤ TARGET_DELTA + m.a ∧ m.b ≤ TARGET_DELTA + o.a) := by
      intro hcon
      have hcon1 := hcon.1
      linarith
    simp [onMessage, h1, h2, hguard, hgt, hmin]
  · intro hle hpos hmin
    have hguard : ¬(o.b ≤ TARGET_DELTA + m.a ∧ m.b ≤ TARGET_DELTA + o.a) := by
      intro hcon
      have hcon2 := hcon.2
      linarith
    simp [onMessage, h1, h2, hguard, hle, hmin]

unseal Rat.mul Rat.add Rat.sub Rat.inv in
/-- C6 witness: a concrete tie (both diffs 0.75) goes to the diffB
direction, buying the peer symbol. -/
theorem C6_detector_direction_witness :
    (onMessage ⟨false, ⟨none, some ⟨100, 5, 101, 5⟩⟩⟩ ⟨.BTCUSD, 100, 5, 101, 5⟩).2
      = some ⟨opposite .BTCUSD, (100 : ℚ), floor4 (USD_TRADE_QTY / 100), .BTCUSD, (101 : ℚ)⟩ :=
  (C6_detector_direction ⟨false, ⟨none, some ⟨100, 5, 101, 5⟩⟩⟩ ⟨.BTCUSD, 100, 5, 101, 5⟩
      ⟨100, 5, 101, 5⟩ rfl rfl).2 (by decide) (by decide) (by decide)

/-- C7 (amended): every `executeArbitrage` call made by the handler
posts entry quantity `Math.floor(USD_TRADE_QTY / entryPrice * 10000) /
10000` — the notional conversion only; the displayed book quantities
(`A` and `B`) are cached but never consulted (app.js lines 92-109). -/
theorem C7_qty_formula (st : GlobalState) (m : TickMsg) (c : ArbCall)
    (h : (onMessage st m).2 = some c) :
    c.buyQty = floor4 (USD_TRADE_QTY / c.buyPrice) := by
  revert h
  unfold onMessage
  split
  · simp
  · split
    · simp
    · split
      · simp
      · split
        · split
          · simp
          · intro h
            simp only [Option.some.injEq] at h
            subst h
            rfl
        · split
          · simp
          · intro h
            simp only [Option.some.injEq] at h
            subst h
            rfl

unseal Rat.mul Rat.add Rat.sub Rat.inv in
/-- C7 witness: the call of the C7 counterexample execution has quantity
equal to the floored notional conversion at its entry price. -/
theorem C7_qty_formula_witness :
    (⟨.BTCUSD, 100, 1/4, .BTCBUSD, 101⟩ : ArbCall).buyQty
      = floor4 (USD_TRADE_QTY / (⟨.BTCUSD, 100, 1/4, .BTCBUSD, 101⟩ : ArbCall).buyPrice) :=
  C7_qty_formula ⟨false, ⟨none, some ⟨102, 5, 101, 5⟩⟩⟩ ⟨.BTCUSD, 100, 1/10, 99, 2⟩
    ⟨.BTCUSD, 100, 1/4, .BTCBUSD, 101⟩ (by decide)

/-- C8 (amended): for transient-classified errors and unfilled polls,
the exit-posting, exit-tracking, entry-monitoring-poll and cancel steps
all decrement their attempt counter by one on each failed attempt, and
each step's defined fallback fires exactly when the counter reaches
zero (market sell for the exit steps, cancel-and-market-sell for entry
monitoring, abandonment for the cancel step); the exception forced by
the counterexample is the entry-monitoring remote-error retry, which
restarts with a fresh `MAX_ATTEMPTS` budget. -/
theorem C8_retry_decrement_and_fallback
    (sym bS sS : Symbol) (qty price qP sP cqty : ℚ) (oid : Nat) (side : Side)
    (n : Nat) (sc code : Int) (ra : ℚ) (rest ors : List Outcome)
    (sr res : OrderRes)
    (hc : code ∈ errorsToRetry) (h2011 : ¬(code = -2011))
    (hs : ¬(sr.status = .FILLED))
    (hr1 : ¬(res.status = .FILLED))
    (hr2 : ¬(res.status = .PARTIALLY_FILLED ∧ res.executedQty ≥ qP / 2)) :
    (step (.limitSell sym qty price (n + 1)) (.httpErr sc code ra :: rest)
      = ({ evs := [.postOrder sym .SELL .LIMIT qty (some price), .wait RETRY_DELAY_MS],
           now := [], later := [.limitSell sym qty price n], halt := false }, rest))
    ∧ (step (.limitSell sym qty price 0) (.httpErr sc code ra :: rest)
      = ({ evs := [.postOrder sym .SELL .LIMIT qty (some price), .wait RETRY_DELAY_MS],
           now := [], later := [.postMarketSell sym qty MAX_ATTEMPTS], halt := false }, rest))
    ∧ (step (.trackSellOrder qty sym oid (n + 1)) (.ok sr :: rest)
      = ({ evs := [.statusReq sym oid], now := [],
           later := [.trackSellOrder qty sym oid n], halt := false }, rest))
    ∧ (step (.trackSellOrder qty sym oid 0) (.ok sr :: rest)
      = ({ evs := [.statusReq sym oid],
           now := [.cancelAndMarketSell oid sym sym .SELL 0 MAX_ATTEMPTS],
           later := [], halt := false }, rest))
    ∧ (step (.sellAfterBuy bS qP sS sP res (n + 1)) (.ok sr :: rest)
      = ({ evs := [.statusReq bS res.orderId], now := [],
           later := [.sellAfterBuy bS qP sS sP sr n], halt := false }, rest))
    ∧ (step (.sellAfterBuy bS qP sS sP res 0) ors
      = ({ evs := [],
           now := [.cancelAndMarketSell res.orderId bS sS .BUY res.executedQty MAX_ATTEMPTS],
           later := [], halt := false }, ors))
    ∧ (step (.cancelAndMarketSell oid bS sS side cqty (n + 1)) (.httpErr sc code ra :: rest)
      = ({ evs := [.cancelReq bS oid, .wait RETRY_DELAY_MS], now := [],
           later := [.cancelAndMarketSell oid bS sS side cqty n], halt := false }, rest))
    ∧ (step (.cancelAndMarketSell oid bS sS side cqty 0) (.httpErr sc code ra :: rest)
      = ({ evs := [.cancelReq bS oid, .wait RETRY_DELAY_MS], now := [],
           later := [.resetLoop], halt := false }, rest)) := by
  refine ⟨?_, ?_, ?_, ?_, ?_, ?_, ?_, ?_⟩ <;>
    simp [step, handleGenericAPIError, r_requestError, jsLt, hc, h2011, hs, hr1, hr2]

/-- C8 witness: a concrete failed exit post at counter 1 decrements to 0,
and concrete exhausted entry monitoring at counter 0 falls back to the
cancel. -/
theorem C8_retry_decrement_and_fallback_witness :
    (step (.limitSell .BTCUSD 1 101 1) [.httpErr 500 (-1000) 0]
      = ({ evs := [.postOrder .BTCUSD .SELL .LIMIT 1 (some 101), .wait RETRY_DELAY_MS],
           now := [], later := [.limitSell .BTCUSD 1 101 0], halt := false }, []))
    ∧ (step (.sellAfterBuy .BTCUSD 1 .BTCBUSD 101 ⟨1, .NEW, 0, 1⟩ 0) []
      = ({ evs := [],
           now := [.cancelAndMarketSell 1 .BTCUSD .BTCBUSD .BUY 0 MAX_ATTEMPTS],
           later := [], halt := false }, [])) := by
  have h := C8_retry_decrement_and_fallback .BTCUSD .BTCUSD .BTCBUSD 1 101 1 101 1 1 .SELL
    0 500 (-1000) 0 [] [] ⟨2, .NEW, 0, 1⟩ ⟨1, .NEW, 0, 1⟩
    (by decide) (by decide) (by decide) (by decide)
    (by intro hx; exact absurd hx.1 (by decide))
  exact ⟨h.1, h.2.2.2.2.2.1⟩

/-- C10: `RESET_LOOP` both releases the lock and clears the whole quote
cache; after it, no tick can trigger a detection until both symbols have
fresh quotes — the first tick after a reset finds no peer quote and just
unlocks; and the in-handler releases that assign `LOCK_LOOP = false`
directly (missing peer at app.js line 73, no edge at line 89) leave the
cache exactly as updated by the incoming tick, not cleared. -/
theorem C10_reset_clears_cache (st : GlobalState) (m : TickMsg) (o : Quote) :
    (∀ st' : GlobalState, RESET_LOOP st' = ⟨false, Cache.empty⟩)
    ∧ (∀ (st' : GlobalState) (m' : TickMsg), (onMessage (RESET_LOOP st') m').2 = none)
    ∧ (st.lockLoop = false →
        (st.latestOrder.set m.s ⟨m.a, m.A, m.b, m.B⟩).get (opposite m.s) = none →
        onMessage st m
          = (⟨false, st.latestOrder.set m.s ⟨m.a, m.A, m.b, m.B⟩⟩, none))
    ∧ (st.lockLoop = false →
        (st.latestOrder.set m.s ⟨m.a, m.A, m.b, m.B⟩).get (opposite m.s) = some o →
        o.b - m.a - TARGET_DELTA ≤ 0 ∧ m.b - o.a - TARGET_DELTA ≤ 0 →
        onMessage st m
          = (⟨false, st.latestOrder.set m.s ⟨m.a, m.A, m.b, m.B⟩⟩, none)) := by
  refine ⟨fun st' => rfl, ?_, ?_, ?_⟩
  · intro st' m'
    rcases m' with ⟨s, a, A, b, B⟩
    cases s <;> simp [onMessage, RESET_LOOP, Cache.set, Cache.get, Cache.empty, opposite]
  · intro h1 h2
    simp [onMessage, h1, h2]
  · intro h1 h2 h3
    simp [onMessage, h1, h2, h3]

unseal Rat.mul Rat.add Rat.sub Rat.inv in
/-- C10 witness: concrete reset, post-reset tick producing no call, a
missing-peer direct unlock keeping the updated cache, and a no-edge
direct unlock keeping the updated cache. -/
theorem C10_reset_clears_cache_witness :
    RESET_LOOP ⟨true, ⟨some ⟨1, 1, 1, 1⟩, none⟩⟩ = ⟨false, Cache.empty⟩
    ∧ (onMessage ⟨false, Cache.empty⟩ ⟨.BTCUSD, 100, 1, 99, 1⟩).2 = none
    ∧ onMessage ⟨false, Cache.empty⟩ ⟨.BTCUSD, 100, 1, 99, 1⟩
        = (⟨false, Cache.empty.set .BTCUSD ⟨100, 1, 99, 1⟩⟩, none)
    ∧ onMessage ⟨false, ⟨none, some ⟨100, 1, 100, 1⟩⟩⟩ ⟨.BTCUSD, 100, 1, 100, 1⟩
        = (⟨false, (⟨none, some ⟨100, 1, 100, 1⟩⟩ : Cache).set .BTCUSD ⟨100, 1, 100, 1⟩⟩, none) :=
  ⟨(C10_reset_clears_cache ⟨false, Cache.empty⟩ ⟨.BTCUSD, 100, 1, 99, 1⟩ ⟨100, 1, 99, 1⟩).1
      ⟨true, ⟨some ⟨1, 1, 1, 1⟩, none⟩⟩,
   (C10_reset_clears_cache ⟨false, Cache.empty⟩ ⟨.BTCUSD, 100, 1, 99, 1⟩ ⟨100, 1, 99, 1⟩).2.1
      ⟨true, ⟨some ⟨1, 1, 1, 1⟩, none⟩⟩ ⟨.BTCUSD, 100, 1, 99, 1⟩,
   (C10_reset_clears_cache ⟨false, Cache.empty⟩ ⟨.BTCUSD, 100, 1, 99, 1⟩ ⟨100, 1, 99, 1⟩).2.2.1
      rfl rfl,
   (C10_reset_clears_cache ⟨false, ⟨none, some ⟨100, 1, 100, 1⟩⟩⟩ ⟨.BTCUSD, 100, 1, 100, 1⟩
      ⟨100, 1, 100, 1⟩).2.2.2 rfl rfl (by decide)⟩

end App
